import Mathlib

/-
Verification of the chat on-chain program, src/chat/programs/chat/src/lib.rs.

The program is a minimal Anchor program: one module marked #[program] that
declares a single instruction handler named `initialize`, one empty accounts
struct named `Initialize`, and a declare_id! line fixing the program id.
The handler body is two lines: a msg! greeting that Debug-formats the
executing program id, and Ok(()).

Because the Lean development cannot spell the Rust handler's name literally,
the handler is embedded here as `chatInit` and its accounts struct as
`InitAccounts`; every other name follows the source.
-/

namespace Chat

/-- A Solana public key, identified by its base58 text rendering.  The
program only ever observes a key through its Debug formatting, and Solana's
Debug instance for Pubkey writes exactly the base58 string. -/
structure Pubkey where
  base58 : String
deriving DecidableEq, Repr

/-- Debug formatting of a Pubkey, as produced by a format spec of kind
Debug: Solana renders the base58 text. -/
def pubkeyDebug (p : Pubkey) : String := p.base58

/-- The program id fixed by the declare_id! line of lib.rs. -/
def ID : Pubkey := ⟨"CqDSGGxfagLcVq8KYQjz4iRnPRxVkVSpVp2bnj19nHVj"⟩

/-- On-chain account data as the runtime hands it to a program: address,
lamport balance, owner, and raw byte data. -/
structure AccountInfo where
  key : Pubkey
  lamports : Nat
  owner : Pubkey
  data : List Nat
deriving DecidableEq, Repr

/-- Embeds the empty accounts struct of lib.rs (the derive(Accounts) struct
named Initialize, lines 15-16).  It declares zero fields, so a value of it
carries no information and grants access to no account. -/
structure InitAccounts where
deriving DecidableEq, Repr

/-- The invocation context Anchor passes to an instruction handler: the
executing program's id, the validated accounts struct, and the remaining
accounts the caller attached beyond the declared ones. -/
structure Context (A : Type) where
  program_id : Pubkey
  accounts : A
  remaining_accounts : List AccountInfo
deriving DecidableEq, Repr

/-- The persistent on-chain state surrounding an invocation: the store of
accounts by address. -/
structure ChainState where
  store : List (Pubkey × AccountInfo)
deriving DecidableEq, Repr

/-- The error value of Anchor's Result type: an error code with a message.
The handler's return type admits these, though its body never builds one. -/
inductive ChatError where
  | anchorError (code : Nat) (message : String)
deriving DecidableEq, Repr

/-- Everything observable after an invocation: the persistent state left
behind, the log lines emitted, and the returned result. -/
structure Output where
  finalState : ChainState
  logs : List String
  result : Except ChatError Unit
deriving Repr

/-- The one log line the handler emits: the msg! call at lib.rs line 10,
a greeting holding the Debug rendering of the executing program's id. -/
def greetingMsg (pid : Pubkey) : String :=
  "Greetings from: " ++ pubkeyDebug pid

/-- Embeds the instruction handler of lib.rs lines 9-12 (the Rust fn named
initialize), run against the surrounding persistent state.  The body reads
and writes no account: it emits the one greeting line and returns Ok(()). -/
def chatInit (st : ChainState) (ctx : Context InitAccounts) : Output :=
  ⟨st, [greetingMsg ctx.program_id], Except.ok ()⟩

/-- The instruction set of the #[program] module named chat: the module
declares exactly one handler, so there is exactly one instruction, and it
carries no argument beyond the implicit context. -/
inductive Instruction where
  | initIx
deriving DecidableEq, Repr

/-- Dispatch of an instruction of the chat program to its handler. -/
def dispatch (st : ChainState) (i : Instruction) (ctx : Context InitAccounts) : Output :=
  match i with
  | .initIx => chatInit st ctx

/-- One string occurs inside another: the characters of the needle appear
contiguously somewhere in the hay. -/
def mentions (hay needle : String) : Prop :=
  ∃ a b, hay.data = a ++ needle.data ++ b

/-- C1: for every invocation context (and surrounding state), the entry
point returns success; it has no error condition and cannot fail. -/
theorem chat_init_always_ok (st : ChainState) (ctx : Context InitAccounts) :
    (chatInit st ctx).result = Except.ok () := rfl

/-- C2: every invocation emits exactly one diagnostic log line, and that
line contains the program's own identifier. -/
theorem chat_init_single_log_mentions_id (st : ChainState) (ctx : Context InitAccounts) :
    (chatInit st ctx).logs.length = 1 ∧
    ∀ line ∈ (chatInit st ctx).logs, mentions line (pubkeyDebug ctx.program_id) := by
  refine ⟨rfl, ?_⟩
  intro line hline
  simp only [chatInit, List.mem_singleton] at hline
  subst hline
  exact ⟨("Greetings from: ").data, [],
    by simp [greetingMsg, String.data_append]⟩

/-- C3: no persistent state is read or written: the account store observable
before the call is exactly the store after it, the log being the only side
effect beside the returned value. -/
theorem chat_init_state_frame (st : ChainState) (ctx : Context InitAccounts) :
    (chatInit st ctx).finalState = st := rfl

/-- C4: the account-context structure declares zero fields and zero
invariants: any two values of it are equal, so an invocation is handed no
external state slot and no persisted account data layout through it. -/
theorem init_accounts_no_fields (a b : InitAccounts) : a = b := rfl

/-- C5: the program exposes exactly one externally invocable entry point:
every instruction is the single declared one, and dispatching any
instruction runs the one handler on nothing beyond the implicit context. -/
theorem chat_single_entry_point :
    (∀ i : Instruction, i = Instruction.initIx) ∧
    (∀ (st : ChainState) (i : Instruction) (ctx : Context InitAccounts),
      dispatch st i ctx = chatInit st ctx) := by
  constructor
  · intro i
    cases i
    rfl
  · intro st i ctx
    cases i
    rfl

/-- C6: the entry point is a single synchronous operation that terminates:
the embedding is a total function, and on every state and context it
reduces to exactly this closed-form output. -/
theorem chat_init_total (st : ChainState) (ctx : Context InitAccounts) :
    chatInit st ctx = ⟨st, [greetingMsg ctx.program_id], Except.ok ()⟩ := rfl

/-- C7: deterministic and non-interfering: two invocations whose contexts
carry the same program identifier produce identical logs and identical
results, whatever else the contexts or the surrounding states hold. -/
theorem chat_init_noninterference (st₁ st₂ : ChainState)
    (ctx₁ ctx₂ : Context InitAccounts)
    (h : ctx₁.program_id = ctx₂.program_id) :
    (chatInit st₁ ctx₁).logs = (chatInit st₂ ctx₂).logs ∧
    (chatInit st₁ ctx₁).result = (chatInit st₂ ctx₂).result := by
  simp [chatInit, greetingMsg, h]

/-- Witness for C7: two concrete invocations sharing the program id but
differing in state and in remaining accounts agree on logs and result. -/
theorem chat_init_noninterference_witness :
    (chatInit ⟨[]⟩ ⟨ID, ⟨⟩, []⟩).logs =
      (chatInit ⟨[(ID, ⟨ID, 5, ID, [1, 2]⟩)]⟩ ⟨ID, ⟨⟩, [⟨ID, 7, ID, []⟩]⟩).logs ∧
    (chatInit ⟨[]⟩ ⟨ID, ⟨⟩, []⟩).result =
      (chatInit ⟨[(ID, ⟨ID, 5, ID, [1, 2]⟩)]⟩ ⟨ID, ⟨⟩, [⟨ID, 7, ID, []⟩]⟩).result :=
  chat_init_noninterference ⟨[]⟩ ⟨[(ID, ⟨ID, 5, ID, [1, 2]⟩)]⟩
    ⟨ID, ⟨⟩, []⟩ ⟨ID, ⟨⟩, [⟨ID, 7, ID, []⟩]⟩ rfl

/-- C8: the entry point never panics or fails: no invocation can produce an
error value, execution always reaches the success return. -/
theorem chat_init_no_error (st : ChainState) (ctx : Context InitAccounts)
    (e : ChatError) : (chatInit st ctx).result ≠ Except.error e := by
  simp [chatInit]

/-- C9: the declared on-chain identifier is the fixed base58 constant, and
an invocation carrying that identifier logs exactly that value in its
greeting line. -/
theorem chat_declared_id (st : ChainState) (ctx : Context InitAccounts)
    (h : ctx.program_id = ID) :
    ID.base58 = "CqDSGGxfagLcVq8KYQjz4iRnPRxVkVSpVp2bnj19nHVj" ∧
    (chatInit st ctx).logs =
      ["Greetings from: CqDSGGxfagLcVq8KYQjz4iRnPRxVkVSpVp2bnj19nHVj"] := by
  refine ⟨rfl, ?_⟩
  simp [chatInit, greetingMsg, pubkeyDebug, h, ID]

/-- Witness for C9: a concrete invocation whose context carries the declared
identifier logs the greeting naming that identifier. -/
theorem chat_declared_id_witness :
    ID.base58 = "CqDSGGxfagLcVq8KYQjz4iRnPRxVkVSpVp2bnj19nHVj" ∧
    (chatInit ⟨[]⟩ ⟨ID, ⟨⟩, []⟩).logs =
      ["Greetings from: CqDSGGxfagLcVq8KYQjz4iRnPRxVkVSpVp2bnj19nHVj"] :=
  chat_declared_id ⟨[]⟩ ⟨ID, ⟨⟩, []⟩ rfl

end Chat
